import Mathlib

/-!
# Verification of the SEO tag inspector's analysis core

Shallow embedding of `backend/server.js` (the `/api/analyze` handler):
tag extraction from a parsed HTML document, per-tag status/point
assignment, score clamping, the preview projection, and the fetch-error
classification of the `catch` block.

The parsed HTML document is modelled abstractly by the query results the
code actually reads through cheerio: the text of the `title` element,
the `content` attribute of the first `meta[name=...]` / `meta[property=...]`
element for a given key (`none` when no such element or no such attribute),
and the `href` of `link[rel=canonical]`.
-/

/-- JavaScript truthiness of a string-or-nullish value: `undefined`/`null`
and the empty string are falsy. -/
def jsTruthy : Option String → Bool
  | some s => s ≠ ""
  | none => false

/-- JavaScript `a || b` on string-or-nullish values. -/
def jsOr (a b : Option String) : Option String :=
  if jsTruthy a then a else b

/-- JavaScript `String.prototype.trim()`: strip leading and trailing
whitespace (modelled over the character list so it evaluates). -/
def jsTrim (s : String) : String :=
  String.mk (((s.data.dropWhile Char.isWhitespace).reverse.dropWhile
    Char.isWhitespace).reverse)

/-- The parsed document, abstracted to the cheerio query results the
handler reads.  `metaName k` is `$('meta[name=k]').attr('content')`,
`metaProperty k` is `$('meta[property=k]').attr('content')`,
`titleText` is `$('title').text()` and `canonicalHref` is
`$('link[rel=canonical]').attr('href')`. -/
structure Doc where
  titleText : String
  metaName : String → Option String
  metaProperty : String → Option String
  canonicalHref : Option String

/-- server.js lines 19-23: `meta[name]` content `||` `meta[property]`
content, `|| null`. -/
def getMetaContent (doc : Doc) (name : String) : Option String :=
  jsOr (jsOr (doc.metaName name) (doc.metaProperty name)) none

inductive TagStatus where
  | present
  | missing
  | warning
deriving DecidableEq

/-- One entry of the `results` array: `{ tag, status, value }`. -/
structure TagFinding where
  tag : String
  status : TagStatus
  value : Option String
deriving DecidableEq

/-- The warning message pushed for an absent robots tag (line 90). -/
def robotsWarningMsg : String := "No robots meta tag found"

/-- The warning message pushed for an absent canonical link (line 98). -/
def canonicalWarningMsg : String := "No canonical URL found"

/-- Lines 69-74: the title check, returning the awarded points and the
pushed finding. -/
def titleCheck (title : String) : Nat × TagFinding :=
  if title ≠ "" then (20, ⟨"title", .present, some title⟩)
  else (0, ⟨"title", .missing, none⟩)

/-- Lines 77-82: the description check. -/
def descriptionCheck (description : String) : Nat × TagFinding :=
  if description ≠ "" then (20, ⟨"description", .present, some description⟩)
  else (0, ⟨"description", .missing, none⟩)

/-- Lines 85-91: the robots check; absence still scores 5 points and
yields a warning finding. -/
def robotsCheck (robots : String) : Nat × TagFinding :=
  if robots ≠ "" then (10, ⟨"robots", .present, some robots⟩)
  else (5, ⟨"robots", .warning, some robotsWarningMsg⟩)

/-- Lines 94-99: the canonical check; absence yields a warning finding
and no points. -/
def canonicalCheck (canonical : String) : Nat × TagFinding :=
  if canonical ≠ "" then (10, ⟨"canonical", .present, some canonical⟩)
  else (0, ⟨"canonical", .warning, some canonicalWarningMsg⟩)

/-- The shared `forEach` body of lines 110-117 and 127-134: 2 points for a
truthy value, else a missing finding. -/
def metaTagCheck (name : String) (value : Option String) : Nat × TagFinding :=
  if jsTruthy value then (2, ⟨name, .present, value⟩)
  else (0, ⟨name, .missing, none⟩)

/-- The `ogTags` array of lines 102-108, with values already extracted. -/
def ogTagList (doc : Doc) : List (String × Option String) :=
  [("og:title", getMetaContent doc "og:title"),
   ("og:description", getMetaContent doc "og:description"),
   ("og:image", getMetaContent doc "og:image"),
   ("og:type", getMetaContent doc "og:type"),
   ("og:url", getMetaContent doc "og:url")]

/-- The `twitterTags` array of lines 120-125. -/
def twitterTagList (doc : Doc) : List (String × Option String) :=
  [("twitter:card", getMetaContent doc "twitter:card"),
   ("twitter:title", getMetaContent doc "twitter:title"),
   ("twitter:description", getMetaContent doc "twitter:description"),
   ("twitter:image", getMetaContent doc "twitter:image")]

/-- The accumulated score before the `Math.min` clamp of line 137: the sum
of the points awarded by every check, in program order. -/
def rawScore (doc : Doc) : Nat :=
  (titleCheck (jsTrim doc.titleText)).1
    + (descriptionCheck ((doc.metaName "description").getD "")).1
    + (robotsCheck ((doc.metaName "robots").getD "")).1
    + (canonicalCheck (doc.canonicalHref.getD "")).1
    + ((ogTagList doc).map fun p => (metaTagCheck p.1 p.2).1).sum
    + ((twitterTagList doc).map fun p => (metaTagCheck p.1 p.2).1).sum

/-- The JSON response of lines 139-149.  `previewTitle` and
`previewDescription` are `og || base` where the base is a plain string, so
the emitted JSON value is always a string; `previewImage` may be null. -/
structure AnalysisResult where
  url : String
  score : Nat
  maxScore : Nat
  results : List TagFinding
  previewTitle : Option String
  previewDescription : Option String
  previewImage : Option String
deriving DecidableEq

/-- server.js lines 41-149: the analysis of a fetched document.
Extraction of the base tags uses `attr(...) || ''` (lines 45-48), OG and
Twitter tags go through `getMetaContent`, each check pushes one finding
and adds its points, the score is clamped by `Math.min(score, 100)`, and
the preview projection is `ogX || baseX` (lines 144-148). -/
def analyze (doc : Doc) (url : String) : AnalysisResult :=
  let title := (jsTrim doc.titleText)
  let description := (doc.metaName "description").getD ""
  let robots := (doc.metaName "robots").getD ""
  let canonical := doc.canonicalHref.getD ""
  let ogTitle := getMetaContent doc "og:title"
  let ogDescription := getMetaContent doc "og:description"
  let ogImage := getMetaContent doc "og:image"
  let twitterImage := getMetaContent doc "twitter:image"
  { url := url
    score := min (rawScore doc) 100
    maxScore := 100
    results :=
      [(titleCheck title).2, (descriptionCheck description).2,
       (robotsCheck robots).2, (canonicalCheck canonical).2]
        ++ (ogTagList doc).map (fun p => (metaTagCheck p.1 p.2).2)
        ++ (twitterTagList doc).map (fun p => (metaTagCheck p.1 p.2).2)
    previewTitle := jsOr ogTitle (some title)
    previewDescription := jsOr ogDescription (some description)
    previewImage := jsOr ogImage twitterImage }

/-- The document with no SEO tags at all, i.e. the parse of
`<html></html>`: every query comes back empty. -/
def emptyDoc : Doc :=
  { titleText := ""
    metaName := fun _ => none
    metaProperty := fun _ => none
    canonicalHref := none }

/-- Helper for `strIncludes`: does `pat` occur in the list? -/
def includesAux (pat : List Char) : List Char → Bool
  | [] => pat.isPrefixOf []
  | c :: rest => pat.isPrefixOf (c :: rest) || includesAux pat rest

/-- JavaScript `String.prototype.includes` (substring containment),
modelled structurally so it evaluates. -/
def strIncludes (s pat : String) : Bool :=
  includesAux pat.data s.data

/-- The shape of an axios/Node error as read by the `catch` block of
server.js lines 151-185: `error.code`, `error.response` (whose only read
field is `status`), `error.request` truthiness, and `error.message`. -/
structure JsError where
  code : Option String
  responseStatus : Option Nat
  hasRequest : Bool
  message : String

/-- server.js lines 154-178: the fetch-failure classification chain,
returning the user-facing message and HTTP status code the handler
responds with. -/
def classifyError (e : JsError) : String × Nat :=
  if e.code = some "ENOTFOUND" ∨ e.code = some "EAI_AGAIN" then
    ("Could not resolve the provided URL. Please check if the URL is correct and try again.", 400)
  else if e.code = some "ECONNREFUSED" then
    ("Connection refused. The server might be down or the URL might be incorrect.", 502)
  else
    match e.responseStatus with
    | some st => (s!"The server responded with status {st}", st)
    | none =>
      if e.hasRequest then
        ("No response received from the server. Please check the URL and try again.", 504)
      else if strIncludes e.message "Invalid URL" then
        ("The provided URL is not valid. Please check the URL and try again.", 400)
      else if strIncludes e.message "timeout" then
        ("The request timed out. Please try again later.", 504)
      else
        ("Failed to analyze URL", 500)

/-- Representative name-resolution failure. -/
def dnsError : JsError :=
  { code := some "ENOTFOUND", responseStatus := none, hasRequest := true
    message := "getaddrinfo ENOTFOUND nosuchhost.example" }

/-- Representative connection-refused failure. -/
def connRefusedError : JsError :=
  { code := some "ECONNREFUSED", responseStatus := none, hasRequest := true
    message := "connect ECONNREFUSED 127.0.0.1:80" }

/-- Representative non-2xx upstream response (a 404). -/
def upstreamError : JsError :=
  { code := some "ERR_BAD_REQUEST", responseStatus := some 404
    hasRequest := true, message := "Request failed with status code 404" }

/-- Representative no-response failure. -/
def noResponseError : JsError :=
  { code := some "ECONNABORTED", responseStatus := none, hasRequest := true
    message := "socket hang up" }

/-- Representative malformed-URL failure. -/
def invalidUrlError : JsError :=
  { code := some "ERR_INVALID_URL", responseStatus := none
    hasRequest := false, message := "Invalid URL" }

/-- Spec-side scoring table (§4.1 of the spec): points awarded to a
finding as a function of its tag and status — title/description present
20, robots present 10 else 5, canonical present 10 else 0, every other
(OG/Twitter) tag present 2 else 0. -/
def specAwardedPoints (f : TagFinding) : Nat :=
  match f.tag, f.status with
  | "title", TagStatus.present => 20
  | "description", TagStatus.present => 20
  | "robots", TagStatus.present => 10
  | "robots", _ => 5
  | "canonical", TagStatus.present => 10
  | _, TagStatus.present => 2
  | _, _ => 0

/-- A document carrying both the `meta[name=og:title]` and
`meta[property=og:title]` variants, with different contents. -/
def docBothOgTitle : Doc :=
  { titleText := ""
    metaName := fun n => if n = "og:title" then some "name-value" else none
    metaProperty :=
      fun n => if n = "og:title" then some "property-value" else none
    canonicalHref := none }

/-- A document whose only OG data is a `meta[property=og:title]`. -/
def docPropertyOnly : Doc :=
  { titleText := ""
    metaName := fun _ => none
    metaProperty :=
      fun n => if n = "og:title" then some "property-value" else none
    canonicalHref := none }

/-- A document with a base title, base description, a twitter image and a
`meta[property=og:title]`, used to exercise the preview projection. -/
def docSocial : Doc :=
  { titleText := " Page Title "
    metaName := fun n =>
      if n = "description" then some "base description"
      else if n = "twitter:image" then some "https://img.example/t.png"
      else none
    metaProperty := fun n => if n = "og:title" then some "OG Title" else none
    canonicalHref := some "https://example.com/" }

/-- A document whose robots meta content happens to equal the warning
placeholder message used for absent robots tags. -/
def docRobotsPlaceholder : Doc :=
  { titleText := ""
    metaName := fun n => if n = "robots" then some robotsWarningMsg else none
    metaProperty := fun _ => none
    canonicalHref := none }

/-- A document where every inspected tag is physically present but carries
an empty value. -/
def docAllEmptyValues : Doc :=
  { titleText := "   "
    metaName := fun _ => some ""
    metaProperty := fun _ => some ""
    canonicalHref := some "" }

/-- The raw extraction the code performs for a given tag key: the trimmed
title text, the `attr(...) || ''` base strings for description, robots
and canonical (lines 45-48), and `getMetaContent` for every other (OG or
Twitter) key. -/
def rawExtract (doc : Doc) (tag : String) : Option String :=
  if tag = "title" then some (jsTrim doc.titleText)
  else if tag = "description" then some ((doc.metaName "description").getD "")
  else if tag = "robots" then some ((doc.metaName "robots").getD "")
  else if tag = "canonical" then some (doc.canonicalHref.getD "")
  else getMetaContent doc tag

/-- The status/value discipline of a finding of `doc`: missing findings
carry a null value, warning findings carry the fixed message of their
tag, and present findings carry exactly the non-null raw extracted
string of their tag. -/
def valueDisciplined (doc : Doc) (f : TagFinding) : Prop :=
  (f.status = .missing → f.value = none)
  ∧ (f.status = .warning →
      (f.tag = "robots" ∧ f.value = some robotsWarningMsg)
      ∨ (f.tag = "canonical" ∧ f.value = some canonicalWarningMsg))
  ∧ (f.status = .present → f.value = rawExtract doc f.tag ∧ f.value ≠ none)

lemma titleCheck_tag (s : String) : (titleCheck s).2.tag = "title" := by
  unfold titleCheck; split <;> rfl

lemma descriptionCheck_tag (s : String) :
    (descriptionCheck s).2.tag = "description" := by
  unfold descriptionCheck; split <;> rfl

lemma robotsCheck_tag (s : String) : (robotsCheck s).2.tag = "robots" := by
  unfold robotsCheck; split <;> rfl

lemma canonicalCheck_tag (s : String) :
    (canonicalCheck s).2.tag = "canonical" := by
  unfold canonicalCheck; split <;> rfl

lemma metaTagCheck_tag (n : String) (v : Option String) :
    (metaTagCheck n v).2.tag = n := by
  unfold metaTagCheck; split <;> rfl

lemma specAwardedPoints_titleCheck (s : String) :
    specAwardedPoints (titleCheck s).2 = (titleCheck s).1 := by
  unfold titleCheck; split <;> rfl

lemma specAwardedPoints_descriptionCheck (s : String) :
    specAwardedPoints (descriptionCheck s).2 = (descriptionCheck s).1 := by
  unfold descriptionCheck; split <;> rfl

lemma specAwardedPoints_robotsCheck (s : String) :
    specAwardedPoints (robotsCheck s).2 = (robotsCheck s).1 := by
  unfold robotsCheck; split <;> rfl

lemma specAwardedPoints_canonicalCheck (s : String) :
    specAwardedPoints (canonicalCheck s).2 = (canonicalCheck s).1 := by
  unfold canonicalCheck; split <;> rfl

lemma specAwardedPoints_metaTagCheck (n : String) (v : Option String)
    (hp : specAwardedPoints ⟨n, .present, v⟩ = 2)
    (hm : specAwardedPoints ⟨n, .missing, none⟩ = 0) :
    specAwardedPoints (metaTagCheck n v).2 = (metaTagCheck n v).1 := by
  unfold metaTagCheck; split
  · exact hp
  · exact hm

lemma specAwardedPoints_og_title (v : Option String) :
    specAwardedPoints (metaTagCheck "og:title" v).2
      = (metaTagCheck "og:title" v).1 :=
  specAwardedPoints_metaTagCheck _ v rfl rfl

lemma specAwardedPoints_og_description (v : Option String) :
    specAwardedPoints (metaTagCheck "og:description" v).2
      = (metaTagCheck "og:description" v).1 :=
  specAwardedPoints_metaTagCheck _ v rfl rfl

lemma specAwardedPoints_og_image (v : Option String) :
    specAwardedPoints (metaTagCheck "og:image" v).2
      = (metaTagCheck "og:image" v).1 :=
  specAwardedPoints_metaTagCheck _ v rfl rfl

lemma specAwardedPoints_og_type (v : Option String) :
    specAwardedPoints (metaTagCheck "og:type" v).2
      = (metaTagCheck "og:type" v).1 :=
  specAwardedPoints_metaTagCheck _ v rfl rfl

lemma specAwardedPoints_og_url (v : Option String) :
    specAwardedPoints (metaTagCheck "og:url" v).2
      = (metaTagCheck "og:url" v).1 :=
  specAwardedPoints_metaTagCheck _ v rfl rfl

lemma specAwardedPoints_twitter_card (v : Option String) :
    specAwardedPoints (metaTagCheck "twitter:card" v).2
      = (metaTagCheck "twitter:card" v).1 :=
  specAwardedPoints_metaTagCheck _ v rfl rfl

lemma specAwardedPoints_twitter_title (v : Option String) :
    specAwardedPoints (metaTagCheck "twitter:title" v).2
      = (metaTagCheck "twitter:title" v).1 :=
  specAwardedPoints_metaTagCheck _ v rfl rfl

lemma specAwardedPoints_twitter_description (v : Option String) :
    specAwardedPoints (metaTagCheck "twitter:description" v).2
      = (metaTagCheck "twitter:description" v).1 :=
  specAwardedPoints_metaTagCheck _ v rfl rfl

lemma specAwardedPoints_twitter_image (v : Option String) :
    specAwardedPoints (metaTagCheck "twitter:image" v).2
      = (metaTagCheck "twitter:image" v).1 :=
  specAwardedPoints_metaTagCheck _ v rfl rfl

/-- C1: the returned score is the per-tag point sum of §4.1, clamped to
at most 100 (and, being a count of awarded points, never negative). -/
theorem score_eq_specAwardedPoints_sum (doc : Doc) (url : String) :
    (analyze doc url).score
      = min (((analyze doc url).results.map specAwardedPoints).sum) 100
    ∧ (analyze doc url).score ≤ 100 := by
  refine ⟨?_, Nat.min_le_right _ _⟩
  show min (rawScore doc) 100 = _
  congr 1
  simp only [analyze, rawScore, ogTagList, twitterTagList, List.map_append,
    List.sum_append, List.map_cons, List.map_nil, List.sum_cons, List.sum_nil,
    specAwardedPoints_titleCheck, specAwardedPoints_descriptionCheck,
    specAwardedPoints_robotsCheck, specAwardedPoints_canonicalCheck,
    specAwardedPoints_og_title, specAwardedPoints_og_description,
    specAwardedPoints_og_image, specAwardedPoints_og_type,
    specAwardedPoints_og_url, specAwardedPoints_twitter_card,
    specAwardedPoints_twitter_title, specAwardedPoints_twitter_description,
    specAwardedPoints_twitter_image]
  omega

/-- C2: `results` always lists exactly the 13 declared tag keys, in the
fixed declaration order, with no duplicates or omissions. -/
theorem results_tags_fixed (doc : Doc) (url : String) :
    (analyze doc url).results.map TagFinding.tag
      = ["title", "description", "robots", "canonical",
         "og:title", "og:description", "og:image", "og:type", "og:url",
         "twitter:card", "twitter:title", "twitter:description",
         "twitter:image"]
    ∧ (analyze doc url).results.length = 13 := by
  constructor
  · simp only [analyze, ogTagList, twitterTagList, List.map_append,
      List.map_cons, List.map_nil, titleCheck_tag, descriptionCheck_tag,
      robotsCheck_tag, canonicalCheck_tag, metaTagCheck_tag]
    rfl
  · simp [analyze, ogTagList, twitterTagList]

/-- C6: the minimal document (`<html></html>`) yields missing title and
description, warning robots and canonical findings carrying non-null
messages, missing findings for all five OG and four Twitter tags, and
score 5. -/
theorem analyze_emptyDoc :
    (analyze emptyDoc "http://example.com").results
      = [⟨"title", .missing, none⟩, ⟨"description", .missing, none⟩,
         ⟨"robots", .warning, some robotsWarningMsg⟩,
         ⟨"canonical", .warning, some canonicalWarningMsg⟩,
         ⟨"og:title", .missing, none⟩, ⟨"og:description", .missing, none⟩,
         ⟨"og:image", .missing, none⟩, ⟨"og:type", .missing, none⟩,
         ⟨"og:url", .missing, none⟩, ⟨"twitter:card", .missing, none⟩,
         ⟨"twitter:title", .missing, none⟩,
         ⟨"twitter:description", .missing, none⟩,
         ⟨"twitter:image", .missing, none⟩]
    ∧ (analyze emptyDoc "http://example.com").score = 5
    ∧ robotsWarningMsg ≠ "" ∧ canonicalWarningMsg ≠ "" := by
  refine ⟨?_, ?_, ?_, ?_⟩ <;> decide

/-- C7: the analysis is deterministic — it is a pure function of the
parsed document and the url, so equal inputs give equal outputs. -/
theorem analyze_deterministic (d1 d2 : Doc) (u1 u2 : String)
    (hd : d1 = d2) (hu : u1 = u2) : analyze d1 u1 = analyze d2 u2 := by
  rw [hd, hu]

/-- Witness for C7 at a concrete input. -/
theorem analyze_deterministic_witness :
    analyze emptyDoc "http://example.com"
      = analyze emptyDoc "http://example.com" :=
  analyze_deterministic emptyDoc emptyDoc _ _ rfl rfl

lemma titleCheck_fst_le (s : String) : (titleCheck s).1 ≤ 20 := by
  unfold titleCheck; split <;> simp

lemma descriptionCheck_fst_le (s : String) : (descriptionCheck s).1 ≤ 20 := by
  unfold descriptionCheck; split <;> simp

lemma robotsCheck_fst_bounds (s : String) :
    5 ≤ (robotsCheck s).1 ∧ (robotsCheck s).1 ≤ 10 := by
  unfold robotsCheck; split <;> simp

lemma canonicalCheck_fst_le (s : String) : (canonicalCheck s).1 ≤ 10 := by
  unfold canonicalCheck; split <;> simp

lemma metaTagCheck_fst_le (n : String) (v : Option String) :
    (metaTagCheck n v).1 ≤ 2 := by
  unfold metaTagCheck; split <;> simp

lemma rawScore_bounds (doc : Doc) :
    5 ≤ rawScore doc ∧ rawScore doc ≤ 78 := by
  simp only [rawScore, ogTagList, twitterTagList, List.map_cons, List.map_nil,
    List.sum_cons, List.sum_nil]
  have h1 := titleCheck_fst_le (jsTrim doc.titleText)
  have h2 := descriptionCheck_fst_le ((doc.metaName "description").getD "")
  have h3 := robotsCheck_fst_bounds ((doc.metaName "robots").getD "")
  have h4 := canonicalCheck_fst_le (doc.canonicalHref.getD "")
  have h5 := metaTagCheck_fst_le "og:title" (getMetaContent doc "og:title")
  have h6 := metaTagCheck_fst_le "og:description"
    (getMetaContent doc "og:description")
  have h7 := metaTagCheck_fst_le "og:image" (getMetaContent doc "og:image")
  have h8 := metaTagCheck_fst_le "og:type" (getMetaContent doc "og:type")
  have h9 := metaTagCheck_fst_le "og:url" (getMetaContent doc "og:url")
  have h10 := metaTagCheck_fst_le "twitter:card"
    (getMetaContent doc "twitter:card")
  have h11 := metaTagCheck_fst_le "twitter:title"
    (getMetaContent doc "twitter:title")
  have h12 := metaTagCheck_fst_le "twitter:description"
    (getMetaContent doc "twitter:description")
  have h13 := metaTagCheck_fst_le "twitter:image"
    (getMetaContent doc "twitter:image")
  omega

/-- C9: the score always lies in `[5, 78]` — robots contributes at least
5 even when absent, the attainable maximum is 78 — so the `Math.min`
clamp never changes the accumulated sum. -/
theorem score_in_range (doc : Doc) (url : String) :
    5 ≤ (analyze doc url).score ∧ (analyze doc url).score ≤ 78
    ∧ (analyze doc url).score = rawScore doc := by
  have h := rawScore_bounds doc
  simp only [analyze]
  omega

/-- C3 counterexample: when both the `meta[name=og:title]` and
`meta[property=og:title]` variants are present with different contents,
the reported value is the `name` variant's, not the `property`
variant's. -/
theorem getMetaContent_name_wins :
    docBothOgTitle.metaName "og:title" = some "name-value"
    ∧ docBothOgTitle.metaProperty "og:title" = some "property-value"
    ∧ ("name-value" : String) ≠ "property-value"
    ∧ getMetaContent docBothOgTitle "og:title" = some "name-value"
    ∧ TagFinding.mk "og:title" .present (some "name-value")
        ∈ (analyze docBothOgTitle "http://example.com").results := by
  refine ⟨rfl, rfl, by decide, by decide, by decide⟩

lemma jsOr_none_some {x : Option String} {s : String}
    (h : jsOr x none = some s) : x = some s ∧ s ≠ "" := by
  unfold jsOr at h
  split at h
  · next hc => subst h; simpa [jsTruthy] using hc
  · exact absurd h (by simp)

lemma getMetaContent_some {doc : Doc} {n s : String}
    (h : getMetaContent doc n = some s) : s ≠ "" :=
  (jsOr_none_some h).2

/-- C3 amended: for the OG tags the `meta[name=og:X]` content takes
precedence; `meta[property=og:X]` is used only when the `name` variant is
absent or empty. -/
theorem getMetaContent_precedence (doc : Doc) (n s : String) :
    (doc.metaName n = some s → s ≠ "" → getMetaContent doc n = some s)
    ∧ (jsTruthy (doc.metaName n) = false → doc.metaProperty n = some s →
        s ≠ "" → getMetaContent doc n = some s)
    ∧ (jsTruthy (doc.metaName n) = false →
        jsTruthy (doc.metaProperty n) = false →
        getMetaContent doc n = none) := by
  refine ⟨?_, ?_, ?_⟩
  · intro h hs
    simp [getMetaContent, jsOr, jsTruthy, h, hs]
  · intro hn hp hs
    unfold getMetaContent jsOr
    cases hmn : doc.metaName n with
    | none => simp [jsTruthy, hp, hs]
    | some a =>
      have ha : a = "" := by
        rw [hmn] at hn; simpa [jsTruthy] using hn
      subst ha
      simp [jsTruthy, hp, hs]
  · intro hn hp
    simp [getMetaContent, jsOr, hn, hp]

/-- Witness for the amended C3 at concrete documents. -/
theorem getMetaContent_precedence_witness :
    getMetaContent docBothOgTitle "og:title" = some "name-value"
    ∧ getMetaContent docPropertyOnly "og:title" = some "property-value"
    ∧ getMetaContent emptyDoc "og:title" = none :=
  ⟨(getMetaContent_precedence docBothOgTitle "og:title" "name-value").1
      (by decide) (by decide),
   (getMetaContent_precedence docPropertyOnly "og:title"
      "property-value").2.1 (by decide) (by decide) (by decide),
   (getMetaContent_precedence emptyDoc "og:title" "").2.2
      (by decide) (by decide)⟩

/-- C4 counterexample: on the minimal document both `og:title` and the
base title are absent, yet `preview.title` is the empty string, not an
absent/null field (likewise for `preview.description`). -/
theorem preview_title_not_absent :
    getMetaContent emptyDoc "og:title" = none
    ∧ jsTrim emptyDoc.titleText = ""
    ∧ (analyze emptyDoc "http://example.com").previewTitle = some ""
    ∧ (analyze emptyDoc "http://example.com").previewTitle ≠ none
    ∧ (analyze emptyDoc "http://example.com").previewDescription = some ""
    ∧ (analyze emptyDoc "http://example.com").previewImage = none := by
  refine ⟨by decide, by decide, by decide, by decide, by decide, by decide⟩

/-- C4 amended: `preview.title` is `og:title` when present, else the base
title (the empty string when that too is absent); `preview.description`
likewise over `og:description` and the base description; `preview.image`
is `og:image`, else `twitter:image`, else null. -/
theorem preview_projection (doc : Doc) (u : String) (s : String) :
    (getMetaContent doc "og:title" = some s →
      (analyze doc u).previewTitle = some s)
    ∧ (getMetaContent doc "og:title" = none →
      (analyze doc u).previewTitle = some (jsTrim doc.titleText))
    ∧ (getMetaContent doc "og:description" = some s →
      (analyze doc u).previewDescription = some s)
    ∧ (getMetaContent doc "og:description" = none →
      (analyze doc u).previewDescription
        = some ((doc.metaName "description").getD ""))
    ∧ (getMetaContent doc "og:image" = some s →
      (analyze doc u).previewImage = some s)
    ∧ (getMetaContent doc "og:image" = none →
      (analyze doc u).previewImage = getMetaContent doc "twitter:image") := by
  refine ⟨?_, ?_, ?_, ?_, ?_, ?_⟩ <;> intro h
  · have hs := getMetaContent_some h
    simp [analyze, jsOr, jsTruthy, h, hs]
  · simp [analyze, jsOr, jsTruthy, h]
  · have hs := getMetaContent_some h
    simp [analyze, jsOr, jsTruthy, h, hs]
  · simp [analyze, jsOr, jsTruthy, h]
  · have hs := getMetaContent_some h
    simp [analyze, jsOr, jsTruthy, h, hs]
  · simp [analyze, jsOr, jsTruthy, h]

/-- Witness for the amended C4 at concrete documents. -/
theorem preview_projection_witness :
    (analyze docSocial "http://example.com").previewTitle = some "OG Title"
    ∧ (analyze docSocial "http://example.com").previewDescription
        = some "base description"
    ∧ (analyze docSocial "http://example.com").previewImage
        = getMetaContent docSocial "twitter:image" :=
  ⟨(preview_projection docSocial "http://example.com" "OG Title").1
      (by decide),
   by
     have := (preview_projection docSocial "http://example.com" "").2.2.2.1
       (by decide)
     simpa using this,
   (preview_projection docSocial "http://example.com" "").2.2.2.2.2
      (by decide)⟩

lemma valueDisciplined_titleCheck (doc : Doc) :
    valueDisciplined doc (titleCheck (jsTrim doc.titleText)).2 := by
  unfold titleCheck valueDisciplined rawExtract; split <;> simp

lemma valueDisciplined_descriptionCheck (doc : Doc) :
    valueDisciplined doc
      (descriptionCheck ((doc.metaName "description").getD "")).2 := by
  unfold descriptionCheck valueDisciplined rawExtract; split <;> simp

lemma valueDisciplined_robotsCheck (doc : Doc) :
    valueDisciplined doc (robotsCheck ((doc.metaName "robots").getD "")).2 := by
  unfold robotsCheck valueDisciplined rawExtract; split <;> simp

lemma valueDisciplined_canonicalCheck (doc : Doc) :
    valueDisciplined doc (canonicalCheck (doc.canonicalHref.getD "")).2 := by
  unfold canonicalCheck valueDisciplined rawExtract; split <;> simp

lemma valueDisciplined_metaTagCheck (doc : Doc) (n : String)
    (hr : rawExtract doc n = getMetaContent doc n) :
    valueDisciplined doc (metaTagCheck n (getMetaContent doc n)).2 := by
  unfold metaTagCheck valueDisciplined
  split
  · next hc =>
    refine ⟨by simp, by simp, fun _ => ⟨hr.symm, ?_⟩⟩
    cases hv : getMetaContent doc n with
    | none => rw [hv] at hc; simp [jsTruthy] at hc
    | some a => simp
  · simp

/-- C5 counterexample: a robots meta tag whose content equals the warning
placeholder yields a present finding whose value is exactly that
placeholder message, so present values are not disjoint from the warning
placeholder strings. -/
theorem present_value_can_be_placeholder :
    TagFinding.mk "robots" .present (some robotsWarningMsg)
      ∈ (analyze docRobotsPlaceholder "http://example.com").results
    ∧ (robotsCheck "").2
      = TagFinding.mk "robots" .warning (some robotsWarningMsg) := by
  refine ⟨by decide, by decide⟩

/-- C5 amended: every finding obeys the status/value discipline — missing
findings carry a null value, warning findings carry the fixed message of
their tag (robots or canonical), present findings carry exactly the
non-null raw extracted string of their tag; but a present value may
textually coincide with a placeholder message. -/
theorem findings_value_discipline (doc : Doc) (u : String)
    (f : TagFinding) (hf : f ∈ (analyze doc u).results) :
    valueDisciplined doc f := by
  simp only [analyze, ogTagList, twitterTagList, List.map_cons, List.map_nil,
    List.cons_append, List.nil_append, List.mem_cons,
    List.not_mem_nil, or_false] at hf
  rcases hf with h | h | h | h | h | h | h | h | h | h | h | h | h <;> subst h
  · exact valueDisciplined_titleCheck _
  · exact valueDisciplined_descriptionCheck _
  · exact valueDisciplined_robotsCheck _
  · exact valueDisciplined_canonicalCheck _
  all_goals exact valueDisciplined_metaTagCheck _ _ rfl

/-- Witness for the amended C5 at concrete findings of concrete
analyses: a warning finding and a present finding. -/
theorem findings_value_discipline_witness :
    valueDisciplined emptyDoc ⟨"robots", .warning, some robotsWarningMsg⟩
    ∧ valueDisciplined docSocial ⟨"description", .present,
        some "base description"⟩ :=
  ⟨findings_value_discipline emptyDoc "http://example.com" _ (by decide),
   findings_value_discipline docSocial "http://example.com" _ (by decide)⟩

/-- C8 counterexample: name-resolution failure and malformed-URL failure
both answer with HTTP status 400, so the five failure kinds do not map to
pairwise distinct status codes (their messages do differ). -/
theorem classifyError_status_collision :
    (classifyError dnsError).2 = 400
    ∧ (classifyError invalidUrlError).2 = 400
    ∧ (classifyError dnsError).1 ≠ (classifyError invalidUrlError).1 := by
  refine ⟨by decide, by decide, by decide⟩

/-- C8 amended: the catch block classifies fetch failures into the closed
set dns / connection-refused / non-2xx upstream (carrying the upstream
status) / no-response / malformed-URL, each with a distinct user-facing
message; the status codes are 400, 502, the upstream status, 504 and 400
respectively, which are not pairwise distinct. -/
theorem classifyError_messages_distinct :
    [(classifyError dnsError).1, (classifyError connRefusedError).1,
     (classifyError upstreamError).1, (classifyError noResponseError).1,
     (classifyError invalidUrlError).1].Pairwise (· ≠ ·)
    ∧ (classifyError dnsError).2 = 400
    ∧ (classifyError connRefusedError).2 = 502
    ∧ (classifyError upstreamError).2 = 404
    ∧ (classifyError noResponseError).2 = 504
    ∧ (classifyError invalidUrlError).2 = 400 := by
  refine ⟨by decide, by decide, by decide, by decide, by decide, by decide⟩

lemma jsTrim_empty : jsTrim "" = "" := rfl

/-- C10: a tag that is physically present but carries an empty value — a
meta with `content=""`, an empty canonical `href`, a `title` whose
trimmed text is empty — is treated exactly like an absent tag: the whole
analysis result (findings, score, preview) equals that of the document
with the tag removed, and the finding is missing (or warning for
robots/canonical) rather than present. -/
theorem empty_value_as_absent (doc : Doc) (u : String) :
    (jsTrim doc.titleText = "" →
      analyze doc u = analyze { doc with titleText := "" } u
      ∧ TagFinding.mk "title" .missing none ∈ (analyze doc u).results)
    ∧ (doc.metaName "description" = some "" →
      analyze doc u
        = analyze { doc with
            metaName := Function.update doc.metaName "description" none } u
      ∧ TagFinding.mk "description" .missing none ∈ (analyze doc u).results)
    ∧ (doc.metaName "robots" = some "" →
      analyze doc u
        = analyze { doc with
            metaName := Function.update doc.metaName "robots" none } u
      ∧ TagFinding.mk "robots" .warning (some robotsWarningMsg)
          ∈ (analyze doc u).results)
    ∧ (doc.canonicalHref = some "" →
      analyze doc u = analyze { doc with canonicalHref := none } u
      ∧ TagFinding.mk "canonical" .warning (some canonicalWarningMsg)
          ∈ (analyze doc u).results)
    ∧ (doc.metaName "og:image" = some "" →
      doc.metaProperty "og:image" = some "" →
      analyze doc u
        = analyze { doc with
            metaName := Function.update doc.metaName "og:image" none,
            metaProperty :=
              Function.update doc.metaProperty "og:image" none } u
      ∧ TagFinding.mk "og:image" .missing none ∈ (analyze doc u).results) := by
  refine ⟨?_, ?_, ?_, ?_, ?_⟩
  · intro h
    refine ⟨?_, ?_⟩
    · simp [analyze, rawScore, ogTagList, twitterTagList, getMetaContent,
        jsOr, jsTruthy, h, jsTrim_empty]
    · simp [analyze, ogTagList, twitterTagList, titleCheck, h]
  · intro h
    refine ⟨?_, ?_⟩
    · simp [analyze, rawScore, ogTagList, twitterTagList, getMetaContent,
        jsOr, jsTruthy, Function.update_apply, h]
    · simp [analyze, ogTagList, twitterTagList, descriptionCheck, h]
  · intro h
    refine ⟨?_, ?_⟩
    · simp [analyze, rawScore, ogTagList, twitterTagList, getMetaContent,
        jsOr, jsTruthy, Function.update_apply, h]
    · simp [analyze, ogTagList, twitterTagList, robotsCheck, h]
  · intro h
    refine ⟨?_, ?_⟩
    · simp [analyze, rawScore, ogTagList, twitterTagList, getMetaContent,
        jsOr, jsTruthy, h]
    · simp [analyze, ogTagList, twitterTagList, canonicalCheck, h]
  · intro h1 h2
    refine ⟨?_, ?_⟩
    · simp [analyze, rawScore, ogTagList, twitterTagList, getMetaContent,
        jsOr, jsTruthy, Function.update_apply, h1, h2]
    · simp [analyze, ogTagList, twitterTagList, metaTagCheck,
        getMetaContent, jsOr, jsTruthy, h1, h2]

/-- Witness for C10 on a document where every tag is present with an
empty value. -/
theorem empty_value_as_absent_witness :
    analyze docAllEmptyValues "http://example.com"
      = analyze { docAllEmptyValues with
          metaName :=
            Function.update docAllEmptyValues.metaName "description" none }
        "http://example.com"
    ∧ TagFinding.mk "og:image" .missing none
        ∈ (analyze docAllEmptyValues "http://example.com").results :=
  ⟨((empty_value_as_absent docAllEmptyValues "http://example.com").2.1
      (by decide)).1,
   ((empty_value_as_absent docAllEmptyValues "http://example.com").2.2.2.2
      (by decide) (by decide)).2⟩
